import Mathlib

/-!
Verification of the Gym-Management-System booking core.

Shallow embedding of the class-booking and trainer-booking services
(`classBookingService` / `trainerBookingService` and the class browse query).
Calendar dates are modelled as natural day numbers (days since 1970-01-01, so
that the JS `YYYY-MM-DD` string comparisons, which are lexicographic and hence
chronological, become `Nat` comparisons).  Trainer-booking instants are
modelled as absolute seconds (`day * 86400 + secondsOfDay`), matching the
`DATETIME` comparisons and the `TIME_TO_SEC` arithmetic of the SQL.
Row-creation timestamps (`created_at`/`updated_at`, set to `NOW()` on every
write) are not modelled.  The store serializes the transactional workflows via
row locks, so the concurrent behaviour is modelled as sequential interleaving
of whole operations; rollback on an error path returns the pre-state.
-/

namespace Gym

/-- Decidable equality of `Except` results, so that concrete runs of the
embedded operations can be checked by `decide`. -/
instance instDecEqExcept {ε α : Type} [DecidableEq ε] [DecidableEq α] :
    DecidableEq (Except ε α) :=
  fun a b =>
    match a, b with
    | .error e1, .error e2 =>
      if h : e1 = e2 then .isTrue (by rw [h])
      else .isFalse (by intro hh; cases hh; exact h rfl)
    | .ok x, .ok y =>
      if h : x = y then .isTrue (by rw [h])
      else .isFalse (by intro hh; cases hh; exact h rfl)
    | .error _, .ok _ => .isFalse (by intro hh; cases hh)
    | .ok _, .error _ => .isFalse (by intro hh; cases hh)

/-- Status column of a `class_bookings` row (`'Active'` / `'Canceled'`). -/
inductive ClassStatus
  | Active
  | Canceled
deriving DecidableEq

/-- A `class_bookings` row. `startDate`/`endDate` are `booking_start_date` /
`booking_end_date` as day numbers (`endDate = none` models SQL NULL). -/
structure ClassBooking where
  bookingId : Nat
  scheduleId : Nat
  memberId : Nat
  startDate : Nat
  endDate : Option Nat
  status : ClassStatus
deriving DecidableEq

/-- A `class_schedules` row joined with its `classes` row: capacity, the
validity window (`none` = NULL bound) and the class's `is_active` flag. -/
structure ClassSchedule where
  scheduleId : Nat
  capacity : Nat
  validFrom : Option Nat
  validUntil : Option Nat
  isActive : Bool
deriving DecidableEq

/-- The relational state the class workflow touches: the `class_schedules`
(joined with `classes`) table and the `class_bookings` table, plus the next
AUTO_INCREMENT booking id. -/
structure ClassDB where
  schedules : List ClassSchedule
  bookings : List ClassBooking
  nextId : Nat
deriving DecidableEq

/-- The typed error codes raised by the services (`error.code` strings). -/
inductive ErrCode
  | SCHEDULE_NOT_FOUND
  | CLASS_INACTIVE
  | SCHEDULE_NOT_YET_AVAILABLE
  | SCHEDULE_ENDED
  | ALREADY_REGISTERED
  | CLASS_FULL
  | BOOKING_NOT_FOUND
  | UNAUTHORIZED
  | ALREADY_CANCELED
  | BOOKING_IN_PAST
  | INVALID_DURATION
  | NO_AVAILABILITY_SLOT
  | TRAINER_SLOT_FULL
  | MEMBER_TIME_CONFLICT
  | INVALID_STATUS
  | INVALID_STATUS_TRANSITION
deriving DecidableEq

/-- `SELECT ... FROM class_schedules cs INNER JOIN classes c ... WHERE
cs.schedule_id = ?` — the first row with the requested id. -/
def findSchedule (db : ClassDB) (scheduleId : Nat) : Option ClassSchedule :=
  db.schedules.find? (fun s => s.scheduleId == scheduleId)

/-- `SELECT COUNT(*) ... WHERE class_schedule_id = ? AND status = 'Active'` —
the capacity count used by `registerForClass` (service lines 110-117). -/
def countActive (bk : List ClassBooking) (scheduleId : Nat) : Nat :=
  (bk.filter (fun b =>
    b.scheduleId == scheduleId && b.status == ClassStatus.Active)).length

/-- `valid_from && today < valid_from` (service line 67). -/
def notYetAvailable (sch : ClassSchedule) (today : Nat) : Bool :=
  match sch.validFrom with
  | none => false
  | some vf => decide (today < vf)

/-- `valid_until && today > valid_until` (service line 77). -/
def scheduleEnded (sch : ClassSchedule) (today : Nat) : Bool :=
  match sch.validUntil with
  | none => false
  | some vu => decide (vu < today)

/-- The duplicate-booking query (service lines 89-96): an `Active` booking of
the same member on the same schedule with `booking_end_date IS NULL OR
booking_end_date > NOW()`; a DATE strictly after the current instant is
exactly a day number strictly after today. -/
def hasActiveDuplicate (bk : List ClassBooking) (scheduleId memberId today : Nat) : Bool :=
  bk.any (fun b =>
    b.scheduleId == scheduleId && b.memberId == memberId &&
    b.status == ClassStatus.Active &&
    (match b.endDate with
     | none => true
     | some e => decide (today < e)))

/-- `registerForClass(memberId, classScheduleId)` from the class booking
service.  `today` is the calendar date at the moment of the call
(`new Date().toISOString().split("T")[0]`).  Errors roll the transaction
back, so the returned state is the pre-state on every error path. -/
def registerForClass (db : ClassDB) (memberId scheduleId today : Nat) :
    Except ErrCode ClassBooking × ClassDB :=
  match findSchedule db scheduleId with
  | none => (.error .SCHEDULE_NOT_FOUND, db)
  | some schedule =>
    if schedule.isActive = false then
      (.error .CLASS_INACTIVE, db)
    else if notYetAvailable schedule today then
      (.error .SCHEDULE_NOT_YET_AVAILABLE, db)
    else if scheduleEnded schedule today then
      (.error .SCHEDULE_ENDED, db)
    else if hasActiveDuplicate db.bookings scheduleId memberId today then
      (.error .ALREADY_REGISTERED, db)
    else if schedule.capacity ≤ countActive db.bookings scheduleId then
      (.error .CLASS_FULL, db)
    else
      let b : ClassBooking :=
        { bookingId := db.nextId, scheduleId := scheduleId, memberId := memberId,
          startDate := today, endDate := none, status := ClassStatus.Active }
      (.ok b, { db with bookings := db.bookings ++ [b], nextId := db.nextId + 1 })

/-- The row update performed by `cancelBooking`'s `UPDATE ... SET status =
'Canceled', booking_end_date = ? WHERE booking_id = ?`. -/
def cancelUpdate (bookingId today : Nat) (b : ClassBooking) : ClassBooking :=
  if b.bookingId == bookingId then
    { b with status := ClassStatus.Canceled, endDate := some today }
  else b

/-- `cancelBooking(bookingId, memberId)` from the class booking service. -/
def cancelBooking (db : ClassDB) (bookingId memberId today : Nat) :
    Except ErrCode ClassBooking × ClassDB :=
  match db.bookings.find? (fun b => b.bookingId == bookingId) with
  | none => (.error .BOOKING_NOT_FOUND, db)
  | some booking =>
    if booking.memberId ≠ memberId then
      (.error .UNAUTHORIZED, db)
    else if booking.status = ClassStatus.Canceled then
      (.error .ALREADY_CANCELED, db)
    else
      (.ok { booking with status := ClassStatus.Canceled, endDate := some today },
       { db with bookings := db.bookings.map (cancelUpdate bookingId today) })

/-- One serialized operation against the class ledger (the store's row locks
totally order the capacity-affecting operations on a schedule). -/
inductive COp
  | register (memberId scheduleId today : Nat)
  | cancel (bookingId memberId today : Nat)

/-- State transition of one class-ledger operation. -/
def stepC (db : ClassDB) : COp → ClassDB
  | .register m s t => (registerForClass db m s t).2
  | .cancel b m t => (cancelBooking db b m t).2

/-- Run a sequence of serialized class-ledger operations. -/
def runC (db : ClassDB) (ops : List COp) : ClassDB :=
  ops.foldl stepC db

/-- The covering condition of the class browse query (`getAvailableClasses`,
lines 58-60): `booking_start_date <= date AND (booking_end_date IS NULL OR
booking_end_date >= date)`. -/
def coversDate (b : ClassBooking) (date : Nat) : Bool :=
  decide (b.startDate ≤ date) &&
    (match b.endDate with
     | none => true
     | some e => decide (date ≤ e))

/-- The per-schedule `booked_count` of the class browse query
(`getAvailableClasses`, lines 53-62): `Active` bookings covering the date. -/
def browseBookedCount (bk : List ClassBooking) (scheduleId date : Nat) : Nat :=
  (bk.filter (fun b =>
    b.scheduleId == scheduleId && b.status == ClassStatus.Active &&
    coversDate b date)).length

/-- Status column of a `trainer_bookings` row. -/
inductive TStatus
  | Pending
  | Confirmed
  | Rejected
deriving DecidableEq

/-- A `trainer_bookings` row: `start_time` as absolute seconds,
`duration_minutes`, status and the free-text `note` column. -/
structure TrainerBooking where
  bookingId : Nat
  trainerId : Nat
  memberId : Nat
  startTime : Nat
  durationMinutes : Nat
  status : TStatus
  note : Option String
deriving DecidableEq

/-- A `trainer_availabilities` row: weekday tag (encoded `0 = SUN` … `6 = SAT`
like `getUTCDay`), optional `specific_date` (day number), `start_time` /
`end_time` as seconds within the day, `max_concurrent_bookings`,
`is_recurring`, and whether `status = 'Active'`. -/
structure TrainerAvailability where
  availabilityId : Nat
  trainerId : Nat
  dayOfWeek : Nat
  specificDate : Option Nat
  startTime : Nat
  endTime : Nat
  maxConcurrentBookings : Nat
  isRecurring : Bool
  isActiveStatus : Bool
deriving DecidableEq

/-- The relational state the trainer workflow touches. -/
structure TrainerDB where
  avail : List TrainerAvailability
  bookings : List TrainerBooking
  nextId : Nat
deriving DecidableEq

/-- `getDayOfWeek`: `new Date(dateString + "T00:00:00Z").getUTCDay()`.
Day 0 (1970-01-01) is a Thursday (`getUTCDay() = 4`), so the weekday code of
day number `d` is `(d + 4) % 7` under the `0 = SUN` … `6 = SAT` encoding. -/
def getDayOfWeek (d : Nat) : Nat :=
  (d + 4) % 7

/-- `status IN ('Pending', 'Confirmed')` — the statuses that count toward
trainer capacity. -/
def countsTowardCapacity (st : TStatus) : Bool :=
  st == TStatus.Pending || st == TStatus.Confirmed

/-- The half-open interval overlap predicate of the spec: `[s1,e1)` and
`[s2,e2)` overlap iff `s1 < e2 AND s2 < e1`. -/
def overlaps (s1 e1 s2 e2 : Nat) : Bool :=
  decide (s1 < e2) && decide (s2 < e1)

/-- Per-row condition of the trainer-conflict count in `requestTrainerBooking`
(lines 492-499): same trainer, `status IN ('Pending','Confirmed')`,
`start_time < ?` (requested end) and `DATE_ADD(start_time, INTERVAL
duration_minutes MINUTE) > ?` (requested start). -/
def trainerConflict (trainerId qs qe : Nat) (b : TrainerBooking) : Bool :=
  b.trainerId == trainerId && countsTowardCapacity b.status &&
    decide (b.startTime < qe) &&
    decide (qs < b.startTime + b.durationMinutes * 60)

/-- Per-row condition of the member-self-conflict count in
`requestTrainerBooking` (lines 512-519). -/
def memberConflict (memberId qs qe : Nat) (b : TrainerBooking) : Bool :=
  b.memberId == memberId && countsTowardCapacity b.status &&
    decide (b.startTime < qe) &&
    decide (qs < b.startTime + b.durationMinutes * 60)

/-- Per-row condition of the booking count in `getTrainerAvailability`
(lines 331-339), counting against the slot window `[ws, we)` (seconds within
the day) on day `date`: `status IN ('Pending','Confirmed') AND start_time <
slotEnd AND DATE_ADD(start_time, INTERVAL duration_minutes MINUTE) >
slotStart`. -/
def browseConflict (trainerId date ws we : Nat) (b : TrainerBooking) : Bool :=
  b.trainerId == trainerId && countsTowardCapacity b.status &&
    decide (b.startTime < date * 86400 + we) &&
    decide (date * 86400 + ws < b.startTime + b.durationMinutes * 60)

/-- The `booking_count` computed per availability slot by
`getTrainerAvailability`. -/
def browseSlotBookingCount (bk : List TrainerBooking) (trainerId date ws we : Nat) : Nat :=
  (bk.filter (browseConflict trainerId date ws we)).length

/-- The availability filter of `requestTrainerBooking` (lines 445-462):
active rows of the trainer matching the date (one-off by `specific_date`,
recurring by weekday) whose own window fully contains the requested interval:
`start_time <= ?` and `end_time >= SEC_TO_TIME(TIME_TO_SEC(?) + duration*60)`. -/
def slotMatches (trainerId date tod duration : Nat) (a : TrainerAvailability) : Bool :=
  a.trainerId == trainerId && a.isActiveStatus &&
    ((a.specificDate == some date && a.isRecurring == false) ||
     (a.dayOfWeek == getDayOfWeek date && a.isRecurring == true)) &&
    decide (a.startTime ≤ tod) && decide (tod + duration * 60 ≤ a.endTime)

/-- The locked availability rows matched by `requestTrainerBooking` for a
request starting at absolute second `start` (date = `start / 86400`,
time-of-day = `start % 86400`, exactly the `substring` split of the input). -/
def matchingSlots (db : TrainerDB) (trainerId start duration : Nat) :
    List TrainerAvailability :=
  db.avail.filter (slotMatches trainerId (start / 86400) (start % 86400) duration)

/-- `requestTrainerBooking(memberId, trainerId, startTime, duration)`.
`now` is the instant of the call (`new Date()`); the requested end instant
`start + duration * 60` is the SQL's `date + SEC_TO_TIME(TIME_TO_SEC(tod) +
duration*60)`.  `duration` is a `Nat`, so only the `duration = 0` part of the
positive-integer validation is reachable in the model. -/
def requestTrainerBooking (db : TrainerDB) (memberId trainerId start duration now : Nat) :
    Except ErrCode TrainerBooking × TrainerDB :=
  if start < now then (.error .BOOKING_IN_PAST, db)
  else if duration == 0 then (.error .INVALID_DURATION, db)
  else
    match matchingSlots db trainerId start duration with
    | [] => (.error .NO_AVAILABILITY_SLOT, db)
    | slot :: _ =>
      let qe := start + duration * 60
      if (db.bookings.filter (trainerConflict trainerId start qe)).length + 1 >
          slot.maxConcurrentBookings then
        (.error .TRAINER_SLOT_FULL, db)
      else if 0 < (db.bookings.filter (memberConflict memberId start qe)).length then
        (.error .MEMBER_TIME_CONFLICT, db)
      else
        let b : TrainerBooking :=
          { bookingId := db.nextId, trainerId := trainerId, memberId := memberId,
            startTime := start, durationMinutes := duration,
            status := TStatus.Pending, note := none }
        (.ok b, { db with bookings := db.bookings ++ [b], nextId := db.nextId + 1 })

/-- `confirmTrainerBooking(bookingId, trainerId)`. -/
def confirmTrainerBooking (db : TrainerDB) (bookingId trainerId : Nat) :
    Except ErrCode TrainerBooking × TrainerDB :=
  match db.bookings.find? (fun b => b.bookingId == bookingId) with
  | none => (.error .BOOKING_NOT_FOUND, db)
  | some booking =>
    if booking.trainerId ≠ trainerId then
      (.error .UNAUTHORIZED, db)
    else if booking.status ≠ TStatus.Pending then
      (.error .INVALID_STATUS, db)
    else
      (.ok { booking with status := TStatus.Confirmed },
       { db with bookings := db.bookings.map (fun x =>
           if x.bookingId == bookingId then { x with status := TStatus.Confirmed }
           else x) })

/-- The note written by `rejectTrainerBooking`'s
`` reason ? `Rejection reason: ${reason}` : null `` (line 726): a JS string is
truthy exactly when it is non-empty, so an absent or empty reason stores NULL. -/
def rejectNote (reason : Option String) : Option String :=
  match reason with
  | none => none
  | some r => if r = "" then none else some ("Rejection reason: " ++ r)

/-- The row update of `rejectTrainerBooking`'s `UPDATE ... SET status =
'Rejected', note = ? WHERE booking_id = ?`. -/
def rejectUpdate (bookingId : Nat) (reason : Option String) (b : TrainerBooking) :
    TrainerBooking :=
  if b.bookingId == bookingId then
    { b with status := TStatus.Rejected, note := rejectNote reason }
  else b

/-- `rejectTrainerBooking(bookingId, trainerId, reason = null)`. -/
def rejectTrainerBooking (db : TrainerDB) (bookingId trainerId : Nat)
    (reason : Option String) : Except ErrCode TrainerBooking × TrainerDB :=
  match db.bookings.find? (fun b => b.bookingId == bookingId) with
  | none => (.error .BOOKING_NOT_FOUND, db)
  | some booking =>
    if booking.trainerId ≠ trainerId then
      (.error .UNAUTHORIZED, db)
    else if booking.status ≠ TStatus.Pending then
      (.error .INVALID_STATUS_TRANSITION, db)
    else
      (.ok { booking with status := TStatus.Rejected, note := rejectNote reason },
       { db with bookings := db.bookings.map (rejectUpdate bookingId reason) })

/-! Concrete states used as witnesses and counterexamples. -/

/-- A class ledger with one capacity-2 schedule and no bookings. -/
def db0 : ClassDB :=
  { schedules := [⟨1, 2, none, none, true⟩], bookings := [], nextId := 1 }

/-- A class ledger whose schedule has `valid_from` in the future (day 20) and
`valid_until` in the past (day 5), relative to `today = 10`. -/
def db7 : ClassDB :=
  { schedules := [⟨1, 5, some 20, some 5, true⟩], bookings := [], nextId := 1 }

/-- A class ledger with one capacity-1 schedule ending on day 5 and no
bookings. -/
def db7b : ClassDB :=
  { schedules := [⟨1, 1, none, some 5, true⟩],
    bookings := [⟨1, 1, 9, 3, none, ClassStatus.Active⟩], nextId := 2 }

/-- A class ledger with one member-1 Active booking on schedule 1. -/
def db9 : ClassDB :=
  { schedules := [⟨1, 3, none, none, true⟩],
    bookings := [⟨1, 1, 1, 0, none, ClassStatus.Active⟩], nextId := 2 }

/-- A booking list with a single `Active` booking whose span `[0, 5]` has
already ended by day 10. -/
def bk5 : List ClassBooking := [⟨1, 1, 1, 0, some 5, ClassStatus.Active⟩]

/-- Scenario B of the spec: trainer 1 declares a one-off window
09:00–10:00 (`32400`–`36000` seconds) on day 0 with `max_concurrent_bookings
= 1`, and member 1 already holds a `Pending` booking 09:00–09:30. -/
def dbB : TrainerDB :=
  { avail := [⟨1, 1, 4, some 0, 32400, 36000, 1, false, true⟩],
    bookings := [⟨1, 1, 1, 32400, 30, TStatus.Pending, none⟩],
    nextId := 2 }

/-- A trainer ledger with a `Confirmed` booking owned by trainer 1. -/
def db8 : TrainerDB :=
  { avail := [], bookings := [⟨1, 1, 1, 0, 30, TStatus.Confirmed, none⟩],
    nextId := 2 }

/-- A trainer ledger with a `Pending` booking of trainer 1 that carries a
previously stored note. -/
def db10 : TrainerDB :=
  { avail := [], bookings := [⟨1, 1, 1, 0, 30, TStatus.Pending, some "old"⟩],
    nextId := 2 }

/-- A trainer ledger with one active declaration 09:00–10:00 on day 0 that
only partially overlaps a request reaching past 10:00. -/
def db6 : TrainerDB :=
  { avail := [⟨1, 1, 4, some 0, 32400, 36000, 3, false, true⟩],
    bookings := [], nextId := 1 }

/-- C3: the half-open overlap predicate `[s1,e1) ∩ [s2,e2) ≠ ∅ ↔ s1 < e2 ∧
s2 < e1` is symmetric, adjacent-touching intervals (`e1 = s2`) never overlap,
and the per-row predicates of the trainer-conflict count in
`requestTrainerBooking` and of the booking count in `getTrainerAvailability`
are exactly this predicate (conjoined with the trainer/status row filters). -/
theorem overlap_predicate_props :
    (∀ s1 e1 s2 e2 : Nat, overlaps s1 e1 s2 e2 = overlaps s2 e2 s1 e1) ∧
    (∀ s1 s2 e2 : Nat, overlaps s1 s2 s2 e2 = false) ∧
    (∀ (trainerId qs qe : Nat) (b : TrainerBooking),
      trainerConflict trainerId qs qe b =
        (b.trainerId == trainerId && countsTowardCapacity b.status &&
          overlaps qs qe b.startTime (b.startTime + b.durationMinutes * 60))) ∧
    (∀ (trainerId date ws we : Nat) (b : TrainerBooking),
      browseConflict trainerId date ws we b =
        (b.trainerId == trainerId && countsTowardCapacity b.status &&
          overlaps (date * 86400 + ws) (date * 86400 + we) b.startTime
            (b.startTime + b.durationMinutes * 60))) := by
  refine ⟨?_, ?_, ?_, ?_⟩
  · intro s1 e1 s2 e2
    simp [overlaps, Bool.and_comm]
  · intro s1 s2 e2
    simp [overlaps]
  · intro trainerId qs qe b
    simp only [trainerConflict, overlaps]
    cases h1 : decide (b.startTime < qe) <;>
      cases h2 : decide (qs < b.startTime + b.durationMinutes * 60) <;>
        simp [h1, h2]
  · intro trainerId date ws we b
    simp only [browseConflict, overlaps]
    cases h1 : decide (b.startTime < date * 86400 + we) <;>
      cases h2 : decide (date * 86400 + ws < b.startTime + b.durationMinutes * 60) <;>
        simp [h1, h2]

/-- C2: a `registerForClass` call that passes the existence, active-flag,
validity-window and duplicate checks fails `CLASS_FULL` with an unchanged
ledger when the `Active` count has reached capacity, and otherwise inserts
exactly one new `Active` booking starting today with open-ended span and
returns it. -/
theorem register_capacity_check (db : ClassDB) (memberId scheduleId today : Nat)
    (sch : ClassSchedule)
    (hfind : findSchedule db scheduleId = some sch)
    (hact : sch.isActive = true)
    (hfrom : notYetAvailable sch today = false)
    (huntil : scheduleEnded sch today = false)
    (hdup : hasActiveDuplicate db.bookings scheduleId memberId today = false) :
    (sch.capacity ≤ countActive db.bookings scheduleId →
      registerForClass db memberId scheduleId today = (.error .CLASS_FULL, db)) ∧
    (countActive db.bookings scheduleId < sch.capacity →
      registerForClass db memberId scheduleId today =
        (.ok { bookingId := db.nextId, scheduleId := scheduleId,
               memberId := memberId, startDate := today, endDate := none,
               status := ClassStatus.Active },
         { db with
             bookings := db.bookings ++
               [{ bookingId := db.nextId, scheduleId := scheduleId,
                  memberId := memberId, startDate := today, endDate := none,
                  status := ClassStatus.Active }],
             nextId := db.nextId + 1 })) := by
  unfold registerForClass
  rw [hfind]
  constructor
  · intro h
    simp [hact, hfrom, huntil, hdup, h]
  · intro h
    simp [hact, hfrom, huntil, hdup, Nat.not_le.mpr h]

/-- C2 witness: on the empty capacity-2 ledger `db0`, registration by member 7
on schedule 1 at day 100 succeeds and appends the expected `Active` row. -/
theorem register_capacity_check_witness :
    registerForClass db0 7 1 100 =
      (.ok ⟨1, 1, 7, 100, none, ClassStatus.Active⟩,
       { db0 with
           bookings := [⟨1, 1, 7, 100, none, ClassStatus.Active⟩],
           nextId := 2 }) := by
  have h := register_capacity_check db0 7 1 100 ⟨1, 2, none, none, true⟩
    rfl rfl rfl rfl rfl
  exact h.2 (by decide)

/-- C7 (amended): a `registerForClass` call on an existing, active schedule
whose `valid_until` is strictly before today — and whose `valid_from` is null
or not after today, since the `NOT_YET_AVAILABLE` check is decided first —
fails `SCHEDULE_ENDED` with an unchanged ledger, regardless of the schedule's
capacity and of the current bookings; `today` is the calendar date at the
moment of the call, a parameter of the ambient clock, not client input. -/
theorem register_ended (db : ClassDB) (memberId scheduleId today : Nat)
    (sch : ClassSchedule) (u : Nat)
    (hfind : findSchedule db scheduleId = some sch)
    (hact : sch.isActive = true)
    (hfrom : notYetAvailable sch today = false)
    (huntil : sch.validUntil = some u)
    (hu : u < today) :
    registerForClass db memberId scheduleId today = (.error .SCHEDULE_ENDED, db) := by
  unfold registerForClass
  rw [hfind]
  simp [hact, hfrom, scheduleEnded, huntil, hu]

/-- C7 counterexample: on `db7` the schedule exists, is active and has
`valid_until = 5 < today = 10`, yet the call fails `SCHEDULE_NOT_YET_AVAILABLE`
(its `valid_from = 20` is still in the future), not `SCHEDULE_ENDED` as the
claim states. -/
theorem register_ended_cx :
    findSchedule db7 1 = some ⟨1, 5, some 20, some 5, true⟩ ∧
    (5 : Nat) < 10 ∧
    (registerForClass db7 1 1 10).1 = .error .SCHEDULE_NOT_YET_AVAILABLE ∧
    (registerForClass db7 1 1 10).1 ≠ .error .SCHEDULE_ENDED := by
  decide

/-- C7 witness: on `db7b` (capacity 1 already fully booked, `valid_until = 5`),
registration at day 9 fails `SCHEDULE_ENDED` before the capacity check can
fire. -/
theorem register_ended_witness :
    registerForClass db7b 1 1 9 = (.error .SCHEDULE_ENDED, db7b) := by
  exact register_ended db7b 1 1 9 ⟨1, 1, none, some 5, true⟩ 5
    rfl rfl rfl rfl (by decide)

/-- C8: `confirmTrainerBooking` and `rejectTrainerBooking` on an existing
reservation owned by the calling trainer whose status is not `Pending` fail
with the illegal-state-transition error (source codes `INVALID_STATUS` and
`INVALID_STATUS_TRANSITION`, the spec's `InvalidStatusTransition` kind) and
the rolled-back ledger is returned unchanged. -/
theorem confirm_reject_invalid_transition (db : TrainerDB)
    (bookingId trainerId : Nat) (reason : Option String) (b : TrainerBooking)
    (hfind : db.bookings.find? (fun x => x.bookingId == bookingId) = some b)
    (hown : b.trainerId = trainerId)
    (hst : b.status ≠ TStatus.Pending) :
    confirmTrainerBooking db bookingId trainerId = (.error .INVALID_STATUS, db) ∧
    rejectTrainerBooking db bookingId trainerId reason =
      (.error .INVALID_STATUS_TRANSITION, db) := by
  constructor
  · unfold confirmTrainerBooking
    rw [hfind]
    simp [hown, hst]
  · unfold rejectTrainerBooking
    rw [hfind]
    simp [hown, hst]

/-- C8 witness: on `db8`, whose booking 1 of trainer 1 is already `Confirmed`,
both a `Confirm` and a `Reject` (with a reason) fail and leave the ledger
unchanged. -/
theorem confirm_reject_invalid_transition_witness :
    confirmTrainerBooking db8 1 1 = (.error .INVALID_STATUS, db8) ∧
    rejectTrainerBooking db8 1 1 (some "late") =
      (.error .INVALID_STATUS_TRANSITION, db8) := by
  exact confirm_reject_invalid_transition db8 1 1 (some "late")
    ⟨1, 1, 1, 0, 30, TStatus.Confirmed, none⟩ rfl rfl (by decide)

/-- Looking a booking id up after `cancelBooking`'s row update finds the
updated row: `cancelUpdate` never changes `bookingId`. -/
theorem find?_map_cancelUpdate (l : List ClassBooking) (bookingId today : Nat) :
    (l.map (cancelUpdate bookingId today)).find? (fun b => b.bookingId == bookingId) =
      (l.find? (fun b => b.bookingId == bookingId)).map (cancelUpdate bookingId today) := by
  rw [List.find?_map]
  have hcomp : ((fun b : ClassBooking => b.bookingId == bookingId) ∘
      cancelUpdate bookingId today) = (fun b => b.bookingId == bookingId) := by
    funext b
    simp only [Function.comp_apply, cancelUpdate]
    split <;> rfl
  rw [hcomp]

/-- C9: `cancelBooking` fails `BOOKING_NOT_FOUND` when the id is absent,
`UNAUTHORIZED` when the caller is not the owning member, `ALREADY_CANCELED`
when the owned booking is already `Canceled` — each with an unchanged ledger —
and otherwise marks the booking `Canceled` with effective end = today; a
second cancel of the same booking then fails `ALREADY_CANCELED` rather than
being silently accepted. -/
theorem cancel_cases (db : ClassDB) (bookingId memberId today : Nat) :
    (db.bookings.find? (fun b => b.bookingId == bookingId) = none →
      cancelBooking db bookingId memberId today = (.error .BOOKING_NOT_FOUND, db)) ∧
    (∀ b, db.bookings.find? (fun x => x.bookingId == bookingId) = some b →
      b.memberId ≠ memberId →
      cancelBooking db bookingId memberId today = (.error .UNAUTHORIZED, db)) ∧
    (∀ b, db.bookings.find? (fun x => x.bookingId == bookingId) = some b →
      b.memberId = memberId → b.status = ClassStatus.Canceled →
      cancelBooking db bookingId memberId today = (.error .ALREADY_CANCELED, db)) ∧
    (∀ b, db.bookings.find? (fun x => x.bookingId == bookingId) = some b →
      b.memberId = memberId → b.status ≠ ClassStatus.Canceled →
      cancelBooking db bookingId memberId today =
        (.ok { b with status := ClassStatus.Canceled, endDate := some today },
         { db with bookings := db.bookings.map (cancelUpdate bookingId today) }) ∧
      ∀ today2,
        cancelBooking
            { db with bookings := db.bookings.map (cancelUpdate bookingId today) }
            bookingId memberId today2 =
          (.error .ALREADY_CANCELED,
           { db with bookings := db.bookings.map (cancelUpdate bookingId today) })) := by
  refine ⟨?_, ?_, ?_, ?_⟩
  · intro h
    unfold cancelBooking
    rw [h]
  · intro b hb hm
    unfold cancelBooking
    rw [hb]
    simp [hm]
  · intro b hb hm hst
    unfold cancelBooking
    rw [hb]
    simp [hm, hst]
  · intro b hb hm hst
    constructor
    · unfold cancelBooking
      rw [hb]
      simp [hm, hst]
    · intro today2
      have hb2 : (db.bookings.map (cancelUpdate bookingId today)).find?
          (fun x => x.bookingId == bookingId) =
          some { b with status := ClassStatus.Canceled, endDate := some today } := by
        rw [find?_map_cancelUpdate, hb]
        have hid : b.bookingId == bookingId :=
          List.find?_some (p := fun x : ClassBooking => x.bookingId == bookingId) hb
        simp [cancelUpdate, hid]
      unfold cancelBooking
      rw [hb2]
      simp [hm]

/-- C9 witness: on `db9`, member 2 is refused (`UNAUTHORIZED`), member 1
cancels booking 1 successfully (end date set to day 4), and a repeated cancel
fails `ALREADY_CANCELED`; a missing id fails `BOOKING_NOT_FOUND`. -/
theorem cancel_cases_witness :
    cancelBooking db9 1 2 4 = (.error .UNAUTHORIZED, db9) ∧
    cancelBooking db9 1 1 4 =
      (.ok ⟨1, 1, 1, 0, some 4, ClassStatus.Canceled⟩,
       { db9 with bookings := [⟨1, 1, 1, 0, some 4, ClassStatus.Canceled⟩] }) ∧
    cancelBooking
        { db9 with bookings := [⟨1, 1, 1, 0, some 4, ClassStatus.Canceled⟩] } 1 1 7 =
      (.error .ALREADY_CANCELED,
       { db9 with bookings := [⟨1, 1, 1, 0, some 4, ClassStatus.Canceled⟩] }) ∧
    cancelBooking db9 5 1 4 = (.error .BOOKING_NOT_FOUND, db9) := by
  have h := cancel_cases db9 1 1 4
  have h2 := cancel_cases db9 1 2 4
  have hmain := h.2.2.2 ⟨1, 1, 1, 0, none, ClassStatus.Active⟩ rfl rfl (by decide)
  refine ⟨h2.2.1 ⟨1, 1, 1, 0, none, ClassStatus.Active⟩ rfl (by decide), ?_, ?_, ?_⟩
  · exact hmain.1
  · exact hmain.2 7
  · exact (cancel_cases db9 5 1 4).1 rfl

/-- C10 counterexample: rejecting booking 1 of `db10` with the supplied (but
empty) reason `""` succeeds yet stores a NULL note — the JS ternary
`` reason ? `Rejection reason: ${reason}` : null `` treats the empty string as
falsy — so the note is not `"Rejection reason: "` as the claim, read at this
input, requires. -/
theorem reject_note_cx :
    (rejectTrainerBooking db10 1 1 (some "")).1 =
      .ok ⟨1, 1, 1, 0, 30, TStatus.Rejected, none⟩ ∧
    (rejectTrainerBooking db10 1 1 (some "")).2.bookings =
      [⟨1, 1, 1, 0, 30, TStatus.Rejected, none⟩] ∧
    (some ("Rejection reason: " ++ "") : Option String) ≠ none := by
  decide

/-- C10 (amended): every successful `rejectTrainerBooking` unconditionally
overwrites the reservation's note — to `"Rejection reason: " ++ reason` when a
non-empty reason is supplied, and to NULL when the reason is absent or empty
(any previously stored note is erased even then) — and modifies no reservation
fields other than status and note (`updated_at` is not modelled), leaving
every other reservation row untouched. -/
theorem reject_note_frame (db : TrainerDB) (bookingId trainerId : Nat)
    (reason : Option String) (b : TrainerBooking)
    (hfind : db.bookings.find? (fun x => x.bookingId == bookingId) = some b)
    (hown : b.trainerId = trainerId)
    (hst : b.status = TStatus.Pending) :
    rejectTrainerBooking db bookingId trainerId reason =
      (.ok { b with status := TStatus.Rejected, note := rejectNote reason },
       { db with bookings := db.bookings.map (rejectUpdate bookingId reason) }) ∧
    (∀ r, reason = some r → r ≠ "" →
      rejectNote reason = some ("Rejection reason: " ++ r)) ∧
    (reason = none → rejectNote reason = none) ∧
    (reason = some "" → rejectNote reason = none) ∧
    (∀ x : TrainerBooking,
      (rejectUpdate bookingId reason x).bookingId = x.bookingId ∧
      (rejectUpdate bookingId reason x).trainerId = x.trainerId ∧
      (rejectUpdate bookingId reason x).memberId = x.memberId ∧
      (rejectUpdate bookingId reason x).startTime = x.startTime ∧
      (rejectUpdate bookingId reason x).durationMinutes = x.durationMinutes ∧
      (x.bookingId ≠ bookingId → rejectUpdate bookingId reason x = x) ∧
      (x.bookingId = bookingId →
        rejectUpdate bookingId reason x =
          { x with status := TStatus.Rejected, note := rejectNote reason })) := by
  refine ⟨?_, ?_, ?_, ?_, ?_⟩
  · unfold rejectTrainerBooking
    rw [hfind]
    simp [hown, hst]
  · intro r hr hne
    simp [rejectNote, hr, hne]
  · intro hr
    simp [rejectNote, hr]
  · intro hr
    simp [rejectNote, hr]
  · intro x
    unfold rejectUpdate
    by_cases hx : x.bookingId = bookingId
    · simp [hx]
    · have hxb : (x.bookingId == bookingId) = false := by
        simp [hx]
      simp [hxb, hx]

/-- C10 witness: rejecting the `Pending` booking of `db10` with reason
`"busy"` stores `"Rejection reason: busy"`, erasing the old note; all other
fields of the row keep their values. -/
theorem reject_note_frame_witness :
    rejectTrainerBooking db10 1 1 (some "busy") =
      (.ok ⟨1, 1, 1, 0, 30, TStatus.Rejected, some "Rejection reason: busy"⟩,
       { db10 with
           bookings := [⟨1, 1, 1, 0, 30, TStatus.Rejected,
             some "Rejection reason: busy"⟩] }) := by
  have h := reject_note_frame db10 1 1 (some "busy")
    ⟨1, 1, 1, 0, 30, TStatus.Pending, some "old"⟩ rfl rfl rfl
  have h1 := h.1
  simpa [rejectNote, rejectUpdate, db10] using h1

/-- C6: a `requestTrainerBooking` call that has passed the cheap input checks
fails `NO_AVAILABILITY_SLOT` exactly when no active availability declaration
of the trainer matching the request's date (one-off by specific date,
recurring by weekday) has its own window fully containing the requested
interval `[start, start + duration·60)`; a declaration that merely partially
overlaps the request does not prevent the failure. -/
theorem request_no_slot_iff (db : TrainerDB)
    (memberId trainerId start duration now : Nat)
    (hpast : ¬ start < now) (hdur : 0 < duration) :
    (requestTrainerBooking db memberId trainerId start duration now).1 =
        .error .NO_AVAILABILITY_SLOT ↔
      ∀ a ∈ db.avail, ¬ (a.trainerId = trainerId ∧ a.isActiveStatus = true ∧
        ((a.specificDate = some (start / 86400) ∧ a.isRecurring = false) ∨
         (a.dayOfWeek = getDayOfWeek (start / 86400) ∧ a.isRecurring = true)) ∧
        a.startTime ≤ start % 86400 ∧ start % 86400 + duration * 60 ≤ a.endTime) := by
  have hd0 : (duration == 0) = false := by
    simp [Nat.pos_iff_ne_zero.mp hdur]
  have hslot : ∀ a : TrainerAvailability,
      slotMatches trainerId (start / 86400) (start % 86400) duration a = true ↔
        (a.trainerId = trainerId ∧ a.isActiveStatus = true ∧
         ((a.specificDate = some (start / 86400) ∧ a.isRecurring = false) ∨
          (a.dayOfWeek = getDayOfWeek (start / 86400) ∧ a.isRecurring = true)) ∧
         a.startTime ≤ start % 86400 ∧ start % 86400 + duration * 60 ≤ a.endTime) := by
    intro a
    simp [slotMatches, and_assoc]
  have hmain : (requestTrainerBooking db memberId trainerId start duration now).1 =
      .error .NO_AVAILABILITY_SLOT ↔
      matchingSlots db trainerId start duration = [] := by
    cases hm : matchingSlots db trainerId start duration with
    | nil =>
      unfold requestTrainerBooking
      rw [if_neg hpast]
      simp [hd0, hm]
    | cons slot rest =>
      constructor
      · intro h
        exfalso
        unfold requestTrainerBooking at h
        rw [if_neg hpast] at h
        simp only [hd0] at h
        rw [hm] at h
        simp only [Bool.false_eq_true, if_false] at h
        split_ifs at h <;> simp_all
      · intro h
        simp at h
  rw [hmain]
  unfold matchingSlots
  rw [List.filter_eq_nil_iff]
  exact forall_congr' fun a => forall_congr' fun _ => not_congr (hslot a)

/-- C6 witness: on `db6` (one active declaration 09:00–10:00 on day 0), a
request for 09:30–10:30 — which the declaration overlaps only partially —
fails `NO_AVAILABILITY_SLOT`. -/
theorem request_no_slot_iff_witness :
    (requestTrainerBooking db6 1 1 34200 60 0).1 = .error .NO_AVAILABILITY_SLOT ∧
    ¬ (34200 : Nat) < 0 ∧ (0 : Nat) < 60 := by
  refine ⟨?_, by decide, by decide⟩
  exact (request_no_slot_iff db6 1 1 34200 60 0 (by decide) (by decide)).mpr
    (by decide)

/-- C4: once `requestTrainerBooking` has found matching availability (head
slot with maximum `M` concurrent bookings), it fails `TRAINER_SLOT_FULL`
exactly when `N + 1 > M` for `N` the count of existing `Pending`/`Confirmed`
bookings of the trainer overlapping `[start, start + duration·60)` under the
half-open predicate; in Scenario B (`dbB`: window 09:00–10:00, max 1, a
`Pending` 09:00–09:30), a 09:15–09:45 request fails `TRAINER_SLOT_FULL` while
a 09:30–10:00 request succeeds as `Pending`. -/
theorem request_slot_full_iff :
    (∀ (db : TrainerDB) (memberId trainerId start duration now : Nat)
        (slot : TrainerAvailability) (rest : List TrainerAvailability),
      ¬ start < now → 0 < duration →
      matchingSlots db trainerId start duration = slot :: rest →
      ((requestTrainerBooking db memberId trainerId start duration now).1 =
          .error .TRAINER_SLOT_FULL ↔
        (db.bookings.filter
            (trainerConflict trainerId start (start + duration * 60))).length + 1 >
          slot.maxConcurrentBookings)) ∧
    (requestTrainerBooking dbB 2 1 33300 30 0).1 = .error .TRAINER_SLOT_FULL ∧
    (requestTrainerBooking dbB 3 1 34200 30 0).1 =
      .ok ⟨2, 1, 3, 34200, 30, TStatus.Pending, none⟩ := by
  refine ⟨?_, by decide, by decide⟩
  intro db memberId trainerId start duration now slot rest hpast hdur hm
  have hd0 : (duration == 0) = false := by
    simp [Nat.pos_iff_ne_zero.mp hdur]
  unfold requestTrainerBooking
  rw [if_neg hpast]
  simp only [hd0, Bool.false_eq_true, if_false]
  rw [hm]
  by_cases hc : (db.bookings.filter
      (trainerConflict trainerId start (start + duration * 60))).length + 1 >
      slot.maxConcurrentBookings
  · simp [hc]
  · simp only [if_neg hc]
    split_ifs <;> simp [hc]

/-- C4 witness: the general criterion applied to `dbB` at the 09:15–09:45
request (count 1, maximum 1, so `1 + 1 > 1`). -/
theorem request_slot_full_iff_witness :
    (requestTrainerBooking dbB 2 1 33300 30 0).1 = .error .TRAINER_SLOT_FULL ∧
    ¬ (33300 : Nat) < 0 ∧ (0 : Nat) < 30 := by
  refine ⟨?_, by decide, by decide⟩
  exact (request_slot_full_iff.1 dbB 2 1 33300 30 0
    ⟨1, 1, 4, some 0, 32400, 36000, 1, false, true⟩ []
    (by decide) (by decide) (by decide)).mpr (by decide)

/-- C5 counterexample: on the ledger `bk5` — one `Active` booking whose span
`[0, 5]` no longer covers day 10 — the register workflow's capacity count
(status filter only) is 1 while the browse path's covering count for day 10
is 0, so the two counts do not agree on every ledger state. -/
theorem register_browse_count_cx :
    countActive bk5 1 = 1 ∧ browseBookedCount bk5 1 10 = 0 ∧
    countActive bk5 1 ≠ browseBookedCount bk5 1 10 := by
  decide

/-- C5 (amended): the register workflow's capacity count and the browse
path's covering count for day `date` agree on every ledger state in which
each `Active` booking of the resource has a span covering `date` (start
`≤ date`, end NULL or `≥ date`) — in particular on all states whose `Active`
rows were inserted by `registerForClass` on or before `date` (start = insert
day, end NULL); on states with an `Active` row whose span misses `date` the
write path counts it and the browse path does not. -/
theorem register_browse_count_agree (bk : List ClassBooking) (scheduleId date : Nat)
    (h : ∀ b ∈ bk, b.scheduleId = scheduleId → b.status = ClassStatus.Active →
      coversDate b date = true) :
    countActive bk scheduleId = browseBookedCount bk scheduleId date := by
  unfold countActive browseBookedCount
  congr 1
  apply List.filter_congr
  intro x hx
  cases hA : (x.scheduleId == scheduleId) <;>
    cases hB : (x.status == ClassStatus.Active) <;> simp [hA, hB]
  exact h x hx (by simpa using hA) (by simpa using hB)

/-- C5 witness: on a two-booking ledger whose `Active` spans both cover day
10, both counts equal 2. -/
theorem register_browse_count_agree_witness :
    countActive [⟨1, 1, 1, 0, none, ClassStatus.Active⟩,
        ⟨2, 1, 2, 3, some 12, ClassStatus.Active⟩] 1 =
      browseBookedCount [⟨1, 1, 1, 0, none, ClassStatus.Active⟩,
        ⟨2, 1, 2, 3, some 12, ClassStatus.Active⟩] 1 10 := by
  exact register_browse_count_agree _ 1 10 (by decide)

/-- Case analysis of the state returned by `registerForClass`: either the
transaction rolled back (state unchanged), or one `Active` booking on the
requested schedule was inserted after the locked capacity check observed a
count strictly below the schedule's capacity. -/
theorem register_state_cases (db : ClassDB) (m s t : Nat) :
    (registerForClass db m s t).2 = db ∨
    (∃ sch, findSchedule db s = some sch ∧
      countActive db.bookings s < sch.capacity ∧
      (registerForClass db m s t).2 =
        { db with
            bookings := db.bookings ++
              [{ bookingId := db.nextId, scheduleId := s, memberId := m,
                 startDate := t, endDate := none, status := ClassStatus.Active }],
            nextId := db.nextId + 1 }) := by
  unfold registerForClass
  split
  next => left; rfl
  next sch hfind =>
    split_ifs with h1 h2 h3 h4 h5
    · left; rfl
    · left; rfl
    · left; rfl
    · left; rfl
    · left; rfl
    · right
      exact ⟨sch, hfind, Nat.not_le.mp h5, rfl⟩

/-- Case analysis of the state returned by `cancelBooking`: unchanged on
every error path, or with the row update applied. -/
theorem cancel_state_cases (db : ClassDB) (bid m t : Nat) :
    (cancelBooking db bid m t).2 = db ∨
    (cancelBooking db bid m t).2 =
      { db with bookings := db.bookings.map (cancelUpdate bid t) } := by
  unfold cancelBooking
  split
  next => left; rfl
  next booking hfind =>
    split_ifs with h1 h2
    · left; rfl
    · left; rfl
    · right; rfl

/-- The capacity count distributes over appending bookings. -/
theorem countActive_append (l₁ l₂ : List ClassBooking) (sid : Nat) :
    countActive (l₁ ++ l₂) sid = countActive l₁ sid + countActive l₂ sid := by
  simp [countActive, List.filter_append]

/-- `cancelBooking`'s row update never increases the `Active` count of any
schedule: it only turns rows `Canceled`. -/
theorem countActive_map_cancelUpdate (l : List ClassBooking) (bid t sid : Nat) :
    countActive (l.map (cancelUpdate bid t)) sid ≤ countActive l sid := by
  induction l with
  | nil => simp [countActive]
  | cons x xs ih =>
    simp only [List.map_cons, countActive, List.filter_cons] at ih ⊢
    by_cases hux : ((cancelUpdate bid t x).scheduleId == sid &&
        (cancelUpdate bid t x).status == ClassStatus.Active) = true
    · have hx : (x.scheduleId == sid && x.status == ClassStatus.Active) = true := by
        revert hux
        unfold cancelUpdate
        split
        · intro hh
          simp at hh
        · intro hh
          exact hh
      rw [if_pos hux, if_pos hx]
      simpa using Nat.succ_le_succ ih
    · rw [if_neg hux]
      by_cases hx : (x.scheduleId == sid && x.status == ClassStatus.Active) = true
      · rw [if_pos hx]
        simp only [List.length_cons]
        exact Nat.le_succ_of_le ih
      · rw [if_neg hx]
        exact ih

/-- Neither class-ledger operation ever touches the schedules table. -/
theorem stepC_schedules (db : ClassDB) (op : COp) :
    (stepC db op).schedules = db.schedules := by
  cases op with
  | register m s t =>
    simp only [stepC]
    rcases register_state_cases db m s t with h | ⟨sch, _, _, h⟩ <;> rw [h]
  | cancel b m t =>
    simp only [stepC]
    rcases cancel_state_cases db b m t with h | h <;> rw [h]

/-- One serialized `Register` or `Cancel` preserves the capacity bound of
every schedule. -/
theorem stepC_count_le (db : ClassDB) (op : COp) (sid : Nat) (sch : ClassSchedule)
    (hfind : findSchedule db sid = some sch)
    (h : countActive db.bookings sid ≤ sch.capacity) :
    countActive (stepC db op).bookings sid ≤ sch.capacity := by
  cases op with
  | register m s t =>
    simp only [stepC]
    rcases register_state_cases db m s t with hcase | ⟨sch', hfind', hlt, hcase⟩
    · rw [hcase]
      exact h
    · rw [hcase]
      dsimp only
      rw [countActive_append]
      by_cases hs : s = sid
      · subst hs
        rw [hfind] at hfind'
        injection hfind' with he
        subst he
        have h1 : countActive
            [{ bookingId := db.nextId, scheduleId := s, memberId := m,
               startDate := t, endDate := none,
               status := ClassStatus.Active }] s = 1 := by
          simp [countActive]
        omega
      · have h0 : countActive
            [{ bookingId := db.nextId, scheduleId := s, memberId := m,
               startDate := t, endDate := none,
               status := ClassStatus.Active }] sid = 0 := by
          simp [countActive, hs]
        omega
  | cancel bid m t =>
    simp only [stepC]
    rcases cancel_state_cases db bid m t with hcase | hcase
    · rw [hcase]
      exact h
    · rw [hcase]
      exact le_trans (countActive_map_cancelUpdate db.bookings bid t sid) h

/-- C1: for a class resource of capacity C, starting from any ledger in which
its `Active` count is at most C, no serialized sequence of `Register` and
`Cancel` operations ever drives the `Active` count of that resource above C. -/
theorem capacity_invariant (db : ClassDB) (ops : List COp) (scheduleId : Nat)
    (sch : ClassSchedule)
    (hfind : findSchedule db scheduleId = some sch)
    (hinit : countActive db.bookings scheduleId ≤ sch.capacity) :
    countActive (runC db ops).bookings scheduleId ≤ sch.capacity := by
  induction ops generalizing db with
  | nil => exact hinit
  | cons op rest ih =>
    have hfind2 : findSchedule (stepC db op) scheduleId = some sch := by
      unfold findSchedule at hfind ⊢
      rw [stepC_schedules]
      exact hfind
    have hcount := stepC_count_le db op scheduleId sch hfind hinit
    have hrun : runC db (op :: rest) = runC (stepC db op) rest := by
      simp [runC]
    rw [hrun]
    exact ih (stepC db op) hfind2 hcount

/-- C1 witness: on the empty capacity-2 ledger `db0`, three registrations of
different members, a cancel, and a re-registration leave at most 2 `Active`
bookings on schedule 1. -/
theorem capacity_invariant_witness :
    findSchedule db0 1 = some ⟨1, 2, none, none, true⟩ ∧
    countActive db0.bookings 1 ≤ 2 ∧
    countActive (runC db0 [COp.register 1 1 0, COp.register 2 1 0,
      COp.register 3 1 0, COp.cancel 1 1 1, COp.register 3 1 2]).bookings 1 ≤ 2 := by
  refine ⟨rfl, by decide, ?_⟩
  exact capacity_invariant db0 _ 1 ⟨1, 2, none, none, true⟩ rfl (by decide)

end Gym
